import Mathlib

/-!
Shallow embedding of the compliance-scanning pipeline.

Primary variant: src/compliance_check.py
  - convert_github_url_to_api : pure URL resolution (lines 155-175)
  - get_file_list_recursive   : recursive listing enumerator (lines 7-29)
  - download_files            : top-level file staging (lines 50-73)
  - format_issue              : finding normalization to a row record (lines 122-138)
  - save_compliance_report    : dedup + CSV serialization (lines 140-153)
  - main / the module entry   : orchestration (lines 177-211)

Alternate variant: src/.github/workflows/compliance_check.py
  - run_bandit : clone, batch scan, JSON parse, CSV write, cleanup (lines 9-45)

External collaborators (requests, the bandit engine, pandas, the filesystem)
are modelled at their boundary: an HTTP response is a record of numeric
status code, body text and parsed JSON entries; the engine finding is a
plain record of the fields the spec names; writing a CSV file is modelled
as producing the list of rows (lists of cells) of the created file.

The Python string methods the source uses (startswith, endswith, lower,
slicing, split on a separator) are embedded as structurally recursive
functions on the character list of the string, so that every definition
evaluates by kernel reduction.
-/

/-- Python str.startswith: the characters of p are a prefix of those of s. -/
def py_startswith (s p : String) : Bool := p.data.isPrefixOf s.data

/-- Python str.endswith: the characters of p are a suffix of those of s. -/
def py_endswith (s p : String) : Bool := p.data.isSuffixOf s.data

/-- ASCII lowercasing of one character, as Python str.lower acts on the
ASCII range the source deals with (codes 65-90 shift to 97-122). -/
def py_lower_char (c : Char) : Char :=
  if 65 ≤ c.toNat ∧ c.toNat ≤ 90 then Char.ofNat (c.toNat + 32) else c

/-- Python str.lower, characterwise on the ASCII range. -/
def py_lower (s : String) : String := String.mk (s.data.map py_lower_char)

/-- Python slicing s[n:] by characters. -/
def py_drop (s : String) (n : Nat) : String := String.mk (s.data.drop n)

/-- Python str.split with a one-character separator, on the character list:
keeps empty pieces, and the empty string splits to one empty piece. -/
def py_split_char (sep : Char) : List Char → List String
  | [] => [""]
  | c :: cs =>
    match py_split_char sep cs, decide (c = sep) with
    | rest, true => "" :: rest
    | [], false => [String.mk [c]]
    | r :: rs, false => String.mk (c :: r.data) :: rs

/-- Python str.split for a one-character separator string. -/
def py_split (s : String) (sep : Char) : List String := py_split_char sep s.data

/-- Python exception kinds raised by the embedded code. ValueError and
AssertionError are raised explicitly in convert_github_url_to_api and by the
assert statements; NameError models evaluation of the undefined name
get_all_nested_files on the directory branch of get_file_list_recursive. -/
inductive PyExc
  | valueError (msg : String)
  | assertionError (msg : String)
  | nameError (msg : String)
deriving DecidableEq, Repr

/-- A dynamically typed Python value, as needed for the status-code
comparison: requests gives an int status_code, the source compares it with
the string literal 200. -/
inductive PyVal
  | int (n : Int)
  | str (s : String)
deriving DecidableEq, Repr

/-- Python equality between dynamically typed values: an int never equals a
str (no coercion in Python ==). -/
def pyEq : PyVal → PyVal → Bool
  | .int a, .int b => a == b
  | .str a, .str b => a == b
  | _, _ => false

/-- One item of a GitHub contents listing, boundary model of the JSON
objects the API returns: a type tag (file or dir), a name, a download URL
(empty string models JSON null on directory entries) and a nested listing
URL. -/
structure RemoteEntry where
  type : String
  name : String
  download_url : String
  url : String
deriving DecidableEq, Repr

/-- Boundary model of requests.get: numeric status code (requests always
yields an int), body text, and the JSON-parsed list of listing entries. -/
structure HttpResponse where
  status_code : Int
  text : String
  entries : List RemoteEntry
deriving Repr

/-- Iteration body of get_file_list_recursive (lines 22-29): file entries
append their download_url to the accumulator; a directory entry evaluates
the undefined name get_all_nested_files, raising NameError. -/
def collect_entries : List RemoteEntry → List String → Except PyExc (List String)
  | [], acc => .ok acc
  | item :: rest, acc =>
    if item.type = "file" then collect_entries rest (acc ++ [item.download_url])
    else if item.type = "dir" then .error (.nameError "name get_all_nested_files is not defined")
    else collect_entries rest acc

/-- get_file_list_recursive (lines 7-29): fetches url, asserts
response.status_code == the string literal 200 (the comparison as written in
line 20, an int compared with a str via Python ==), then walks the entries.
fetch is the boundary model of requests.get. -/
def get_file_list_recursive (fetch : String → HttpResponse) (url : String)
    (file_list : List String := []) : Except PyExc (List String) :=
  let response := fetch url
  if pyEq (.int response.status_code) (.str "200") then
    collect_entries response.entries file_list
  else
    .error (.assertionError response.text)

/-- download_files (lines 50-73): iterates the top-level listing only; an
entry whose name (joined under local_dir, which does not change the suffix)
does not end in .py after lowercasing is skipped, otherwise its content is
fetched from its download_url and written under its name. The result is the
list of staged (filename, content) pairs, names relative to local_dir.
fetchText is the boundary model of requests.get(...).text. -/
def download_files (fetchText : String → String) (listing : List RemoteEntry) :
    List (String × String) :=
  listing.foldl
    (fun staged file =>
      if ¬ (py_endswith (py_lower file.name) ".py") then staged
      else staged ++ [(file.name, fetchText file.download_url)])
    []

/-- A bandit engine finding, boundary model of the issue objects the
in-process engine returns, with the fields the pipeline reads. -/
structure Issue where
  fname : String
  lineno : Nat
  severity : String
  confidence : String
  text : String
deriving DecidableEq, Repr

/-- os.path.basename on POSIX paths: the part after the last slash. -/
def basename (p : String) : String := (py_split p (Char.ofNat 47)).getLastD ""

/-- The row record built by format_issue (lines 122-138): a dict with keys
File, Line, Severity, Confidence, Issue. -/
structure FormattedIssue where
  File : String
  Line : Nat
  Severity : String
  Confidence : String
  Issue : String
deriving DecidableEq, Repr

/-- format_issue (lines 122-138): File is os.path.basename of the finding
filename; the other fields are carried over. -/
def format_issue (i : Issue) : FormattedIssue :=
  { File := basename i.fname, Line := i.lineno, Severity := i.severity,
    Confidence := i.confidence, Issue := i.text }

/-- The header row pandas derives from the format_issue dict keys. -/
def csv_header : List String := ["File", "Line", "Severity", "Confidence", "Issue"]

/-- The CSV cells of one formatted finding, in the column order of the dict
keys. -/
def issue_row (f : FormattedIssue) : List String :=
  [f.File, toString f.Line, f.Severity, f.Confidence, f.Issue]

/-- Line 149: unique_issues = set(issues). The engine findings are value
records at this boundary (spec section 3), so the set collapses structural
duplicates; embedded as list dedup. -/
def unique_issues (issues : List Issue) : List Issue := issues.dedup

/-- Line 150: issues_data, the list of formatted row records fed to the
DataFrame. -/
def issues_data (issues : List Issue) : List FormattedIssue :=
  (unique_issues issues).map format_issue

/-- save_compliance_report (lines 140-153), as the rows of the CSV file it
creates. pandas DataFrame(list of dicts).to_csv(index=False) emits the
header derived from the dict keys and one row per record; on an empty record
list the DataFrame has no columns and to_csv emits a single empty line, so
the created file holds one row with no cells and in particular no header. -/
def save_compliance_report (issues : List Issue) : List (List String) :=
  if (issues_data issues).isEmpty then [[]]
  else csv_header :: (issues_data issues).map issue_row

/-- Outcome of the reporting tail of main: the rows of the written CSV file
when one is created, and the printed notice when not. -/
structure MainOutcome where
  csv : Option (List (List String))
  notice : Option String
deriving DecidableEq, Repr

namespace ComplianceCheck

/-- main (lines 177-197), reporting phase: retrieval and analysis are
effectful phases whose result, the collected issue list, is the parameter.
Lines 194-197: a nonempty issue list is saved to compliance_report.csv,
an empty one only prints a notice. -/
def main (issues : List Issue) : MainOutcome :=
  if issues.isEmpty then { csv := none, notice := some "No issues found." }
  else { csv := some (save_compliance_report issues), notice := none }

end ComplianceCheck

/-- convert_github_url_to_api (lines 155-175): pure string transformation.
Checks the host marker, splits the remainder on slashes (Python str.split
with an explicit separator keeps empty pieces), asserts at least two pieces,
and builds the API URL from the first two. -/
def convert_github_url_to_api (url : String) : Except PyExc String :=
  if ¬ py_startswith url "https://github.com/" then
    .error (.valueError "Invalid GitHub URL")
  else
    let repo_path := py_split (py_drop url "https://github.com/".length) (Char.ofNat 47)
    if repo_path.length < 2 then
      .error (.assertionError "Looks like an invalid(/)")
    else
      .ok ("https://api.github.com/repos/" ++ repo_path.getD 0 "" ++ "/"
        ++ repo_path.getD 1 "" ++ "/contents/")

/-- What the module entry block observably does before and at the call of
main: what it prints, whether main (whose first action is download_files,
the retrieval step) is invoked, and with which endpoint. -/
structure ScriptTrace where
  printed : List String
  retrieval_invoked : Bool
  retrieval_endpoint : Option String
deriving DecidableEq, Repr

/-- The module entry block (lines 199-211). api_url starts as None. On wrong
argument count it prints usage and still falls through to main(api_url) with
None. Otherwise it resolves the URL: on success it prints the API URL and
calls main with it; a ValueError is caught, printed, and the block still
falls through to main(None); an AssertionError is not caught by the except
ValueError handler, so the script aborts before main. -/
def script_main (argv : List String) : ScriptTrace :=
  if argv.length ≠ 2 then
    { printed := ["Usage: python <file_name> <repo_url>"],
      retrieval_invoked := true, retrieval_endpoint := none }
  else
    match convert_github_url_to_api (argv.getD 1 "") with
    | .ok api =>
      { printed := [api], retrieval_invoked := true, retrieval_endpoint := some api }
    | .error (.valueError m) =>
      { printed := [m], retrieval_invoked := true, retrieval_endpoint := none }
    | .error _ =>
      { printed := [], retrieval_invoked := false, retrieval_endpoint := none }

/-- One entry of the results array of the bandit JSON payload, boundary
model with the fields run_bandit reads (alternate variant, lines 25-33). -/
structure BanditResult where
  filename : String
  line_number : Nat
  issue_severity : String
  issue_confidence : String
  issue_text : String
  more_info : String
deriving DecidableEq, Repr

/-- The parsed bandit JSON payload: its results array. -/
structure BanditData where
  results : List BanditResult
deriving DecidableEq, Repr

/-- The fixed header list of the alternate variant (line 23). -/
def headers : List String :=
  ["Filename", "Line Number", "Issue Severity", "Issue Confidence", "Issue Text", "More Info"]

/-- One CSV data row of the alternate variant (lines 26-33). -/
def result_row (r : BanditResult) : List String :=
  [r.filename, toString r.line_number, r.issue_severity, r.issue_confidence,
   r.issue_text, r.more_info]

/-- Observable outcome of run_bandit: the rows of the created CSV file when
the run reaches the write, and whether the temporary clone directory was
removed. -/
structure RunBanditOutcome where
  csv : Option (List (List String))
  temp_dir_removed : Bool
deriving DecidableEq, Repr

/-- run_bandit (alternate variant, lines 9-45). The clone and engine
invocation are effectful; the parameter is the result of
json.loads(bandit_output) at Step 3, error meaning the parse raised. The
function body is straight line code: on a parse error the exception
propagates out of the function before Step 6, so shutil.rmtree(temp_dir) is
never reached; only on the success path are the header and data rows written
and the temporary directory removed. -/
def run_bandit (parsed : Except String BanditData) : RunBanditOutcome :=
  match parsed with
  | .error _ => { csv := none, temp_dir_removed := false }
  | .ok data =>
    { csv := some (headers :: data.results.map result_row), temp_dir_removed := true }

deriving instance DecidableEq for Except

/-! Concrete scenario data and the claim theorems. -/

/-- A well-formed listing response with one file entry, carrying the numeric
success status 200 that requests yields. -/
def c1_response : HttpResponse :=
  { status_code := 200, text := "listing-body",
    entries := [{ type := "file", name := "a.py",
                  download_url := "https://raw.example/a.py", url := "" }] }

/-- C1. The claim reads: retrieval fails exactly on non-success status, with
the status compared numerically, so a numeric 200 succeeds. On the code, the
assertion on line 20 compares the int status_code with the string literal
200 via Python ==, which is false for every int, so retrieval raises
AssertionError even on a response whose numeric status code is 200. -/
theorem c1_numeric_200_still_fails :
    pyEq (.int 200) (.str "200") = false ∧
    get_file_list_recursive (fun _ => c1_response)
        "https://api.github.com/repos/o/r/contents/"
      = .error (.assertionError "listing-body") := by
  exact ⟨rfl, by decide⟩

/-- The top-level listing of the C2 scenario: one file entry a.py and one
directory entry whose nested listing holds b.py. -/
def c2_listing : List RemoteEntry :=
  [{ type := "file", name := "a.py", download_url := "https://raw.example/a.py", url := "" },
   { type := "dir", name := "subdir", download_url := "",
     url := "https://api.github.com/repos/o/r/contents/subdir" }]

/-- Content fetch of the C2 scenario. -/
def c2_fetch (u : String) : String :=
  if u = "https://raw.example/a.py" then "content-a"
  else if u = "https://raw.example/b.py" then "content-b"
  else ""

/-- Listing fetch of the C2 scenario, status 200 everywhere; the nested
listing of the directory holds the file b.py. -/
def c2_listing_fetch (u : String) : HttpResponse :=
  if u = "https://api.github.com/repos/o/r/contents/subdir" then
    { status_code := 200, text := "nested-body",
      entries := [{ type := "file", name := "b.py",
                    download_url := "https://raw.example/b.py", url := "" }] }
  else
    { status_code := 200, text := "root-body", entries := c2_listing }

/-- C2. The claim reads: retrieval stages exactly a.py and b.py, recursing
into the directory entry. On the code, download_files iterates only the
top-level listing and skips the directory entry (its name lacks the .py
suffix), so only a.py is staged and b.py never is; and the recursive
enumerator fails outright on the same scenario because its status assertion
compares int with str. -/
theorem c2_directory_not_recursed :
    download_files c2_fetch c2_listing = [("a.py", "content-a")] ∧
    "b.py" ∉ (download_files c2_fetch c2_listing).map Prod.fst ∧
    get_file_list_recursive c2_listing_fetch "https://api.github.com/repos/o/r/contents/"
      = .error (.assertionError "root-body") := by
  refine ⟨by decide, by decide, by decide⟩

/-- C3. The reporting tail of main: an empty issue list writes no CSV file
and prints the notice; a nonempty one writes the report, whose row count is
one header plus one row per deduplicated finding. -/
theorem c3_report_branch (issues : List Issue) :
    (issues = [] →
      ComplianceCheck.main issues = { csv := none, notice := some "No issues found." }) ∧
    (issues ≠ [] →
      ComplianceCheck.main issues
        = { csv := some (save_compliance_report issues), notice := none } ∧
      (save_compliance_report issues).length = (unique_issues issues).length + 1) := by
  constructor
  · rintro rfl
    rfl
  · intro h
    have hne : issues.isEmpty = false := by
      cases issues with
      | nil => exact absurd rfl h
      | cons a l => rfl
    have hu : unique_issues issues ≠ [] := by
      intro he
      exact h ((List.dedup_eq_nil issues).mp he)
    constructor
    · simp [ComplianceCheck.main, hne]
    · simp [save_compliance_report, issues_data, hu]

/-- Witness for C3 at the empty list and at a one-element list. -/
def c3_issue : Issue :=
  { fname := "app.py", lineno := 4, severity := "LOW", confidence := "HIGH",
    text := "possible hardcoded password" }

/-- Witness for C3: both branches at concrete inputs. -/
theorem c3_report_branch_witness :
    (ComplianceCheck.main [] = { csv := none, notice := some "No issues found." }) ∧
    (([c3_issue] : List Issue) ≠ []) ∧
    (ComplianceCheck.main [c3_issue]
        = { csv := some (save_compliance_report [c3_issue]), notice := none } ∧
      (save_compliance_report [c3_issue]).length = (unique_issues [c3_issue]).length + 1) :=
  ⟨(c3_report_branch []).1 rfl, by decide, (c3_report_branch [c3_issue]).2 (by decide)⟩

/-- C4 counterexample. The claim reads: the writer always emits at least the
fixed header row, also on an empty finding sequence. On the primary variant
writer, the header of the DataFrame is derived from the record dicts, so
with zero findings the created file holds a single empty line and no header
row. -/
theorem c4_counterexample_empty_no_header :
    save_compliance_report [] = [[]] ∧ csv_header ∉ save_compliance_report [] := by
  refine ⟨by decide, by decide⟩

/-- C4 amended: the alternate variant writer always writes its fixed header
(also with zero data rows); the primary variant writer always creates the
file, but writes the header row exactly when there is at least one finding,
and with zero findings writes a single empty line. -/
theorem c4_writers_header_behavior (results : List BanditResult) (issues : List Issue)
    (h : issues ≠ []) :
    (run_bandit (.ok { results := results })).csv
      = some (headers :: results.map result_row) ∧
    save_compliance_report [] = [[]] ∧
    (save_compliance_report issues).head? = some csv_header := by
  refine ⟨rfl, by decide, ?_⟩
  have hu : unique_issues issues ≠ [] := by
    intro he
    exact h ((List.dedup_eq_nil issues).mp he)
  simp [save_compliance_report, issues_data, hu]

/-- Witness data for C4. -/
def c4_issue : Issue :=
  { fname := "cfg.py", lineno := 7, severity := "HIGH", confidence := "MEDIUM",
    text := "subprocess call with shell" }

/-- Witness for C4 at an empty alternate payload and a one-finding primary
input. -/
theorem c4_writers_header_behavior_witness :
    (([c4_issue] : List Issue) ≠ []) ∧
    ((run_bandit (.ok { results := ([] : List BanditResult) })).csv
        = some (headers :: ([] : List BanditResult).map result_row) ∧
      save_compliance_report [] = [[]] ∧
      (save_compliance_report [c4_issue]).head? = some csv_header) :=
  ⟨by decide, c4_writers_header_behavior [] [c4_issue] (by decide)⟩

/-- C5. Normalization collapses structural duplicates: every finding present
in the input occurs exactly once after unique_issues, in particular a pair
of findings identical in all fields (also across invocations) leaves one. -/
theorem c5_structural_dedup (issues : List Issue) (i : Issue) (h : i ∈ issues) :
    (unique_issues issues).count i = 1 := by
  simp [unique_issues, List.count_dedup, h]

/-- Witness data for C5: one finding occurring twice, as two structurally
identical findings from separate invocations. -/
def c5_issue : Issue :=
  { fname := "db.py", lineno := 21, severity := "MEDIUM", confidence := "MEDIUM",
    text := "sql injection vector" }

/-- Witness for C5: the duplicated pair collapses to a single occurrence. -/
theorem c5_structural_dedup_witness :
    c5_issue ∈ [c5_issue, c5_issue] ∧ (unique_issues [c5_issue, c5_issue]).count c5_issue = 1 :=
  ⟨by decide, c5_structural_dedup [c5_issue, c5_issue] c5_issue (by decide)⟩

/-- Two findings of the C6 scenario: identical in every field the report
keeps, but from files in different directories. -/
def c6_issue_a : Issue :=
  { fname := "pkga/util.py", lineno := 3, severity := "LOW", confidence := "HIGH",
    text := "try except pass detected" }

/-- Second finding of the C6 scenario, same base filename in another
directory. -/
def c6_issue_b : Issue :=
  { fname := "pkgb/util.py", lineno := 3, severity := "LOW", confidence := "HIGH",
    text := "try except pass detected" }

/-- C6 counterexample. The claim reads: no two rows of a produced report are
identical. Two distinct findings that differ only in the directory of their
path survive deduplication, and format_issue discards the directory, so the
written report holds two identical rows. -/
theorem c6_counterexample_duplicate_rows :
    ¬ (save_compliance_report [c6_issue_a, c6_issue_b]).Nodup := by
  decide

/-- C6 amended: the deduplicated row records of a report are pairwise
distinct provided no two distinct deduplicated findings collide under
format_issue, that is, agree on base filename, line, severity, confidence
and message; findings from different directories can collide and then
identical rows occur. -/
theorem c6_rows_nodup_of_injective (issues : List Issue)
    (hinj : ∀ i ∈ unique_issues issues, ∀ j ∈ unique_issues issues,
      format_issue i = format_issue j → i = j) :
    (issues_data issues).Nodup :=
  (List.nodup_dedup issues).map_on hinj

/-- Witness for C6 amended at a single-finding input. -/
theorem c6_rows_nodup_of_injective_witness :
    (∀ i ∈ unique_issues [c6_issue_a], ∀ j ∈ unique_issues [c6_issue_a],
      format_issue i = format_issue j → i = j) ∧
    (issues_data [c6_issue_a]).Nodup :=
  ⟨by decide, c6_rows_nodup_of_injective [c6_issue_a] (by decide)⟩

/-- C7. The claim reads: the temporary clone directory is removed on every
execution path of run_bandit. On the code, when Step 3 json.loads raises
(for instance when the engine wrote no JSON to stdout), the exception
propagates before Step 6 and shutil.rmtree never runs: the directory is
leaked. -/
theorem c7_temp_dir_leak_on_parse_error :
    (run_bandit (.error "Expecting value: line 1 column 1")).temp_dir_removed = false ∧
    (run_bandit (.error "Expecting value: line 1 column 1")).csv = none := by
  exact ⟨rfl, rfl⟩

/-- C8. The claim reads: a malformed repository locator is fatal and the run
terminates without any retrieval step. On the code, the except ValueError
handler prints the error and the block still falls through to main(api_url)
with api_url = None, whose first action is download_files, the retrieval
step: retrieval is invoked with a null endpoint instead of terminating. -/
theorem c8_invalid_reference_not_fatal :
    convert_github_url_to_api "http://example.com/a/b"
      = .error (.valueError "Invalid GitHub URL") ∧
    script_main ["compliance_check.py", "http://example.com/a/b"]
      = { printed := ["Invalid GitHub URL"], retrieval_invoked := true,
          retrieval_endpoint := none } := by
  refine ⟨by decide, by decide⟩

/-- C9. Resolution is a pure string transformation; a reference without the
host marker fails with ValueError (the InvalidReferenceError of the spec),
and a reference whose remainder splits into fewer than two pieces fails with
the assertion on line 173 (also a malformed-locator failure). -/
theorem c9_resolve_rejects_malformed (url : String) :
    (¬ py_startswith url "https://github.com/" →
      convert_github_url_to_api url = .error (.valueError "Invalid GitHub URL")) ∧
    (py_startswith url "https://github.com/" →
      (py_split (py_drop url "https://github.com/".length) (Char.ofNat 47)).length < 2 →
      convert_github_url_to_api url = .error (.assertionError "Looks like an invalid(/)")) := by
  constructor
  · intro h
    simp [convert_github_url_to_api, h]
  · intro h hlen
    simp [convert_github_url_to_api, h, hlen]

/-- Witness for C9 at two concrete references: one with a foreign host, one
with a single path segment. -/
theorem c9_resolve_rejects_malformed_witness :
    (¬ py_startswith "ftp://example.com/a/b" "https://github.com/" ∧
      convert_github_url_to_api "ftp://example.com/a/b"
        = .error (.valueError "Invalid GitHub URL")) ∧
    (py_startswith "https://github.com/owner" "https://github.com/" ∧
      (py_split (py_drop "https://github.com/owner" "https://github.com/".length)
        (Char.ofNat 47)).length < 2 ∧
      convert_github_url_to_api "https://github.com/owner"
        = .error (.assertionError "Looks like an invalid(/)")) :=
  ⟨⟨by decide, (c9_resolve_rejects_malformed "ftp://example.com/a/b").1 (by decide)⟩,
   ⟨by decide, by decide,
    (c9_resolve_rejects_malformed "https://github.com/owner").2 (by decide) (by decide)⟩⟩

/-- C10. The File cell of a report row is the base filename of the analyzed
file, so two findings agreeing on base filename, line, severity, confidence
and message format to indistinguishable rows even from different
directories. -/
theorem c10_basename_collision (i j : Issue)
    (hf : basename i.fname = basename j.fname) (hl : i.lineno = j.lineno)
    (hs : i.severity = j.severity) (hc : i.confidence = j.confidence)
    (ht : i.text = j.text) :
    (format_issue i).File = basename i.fname ∧ format_issue i = format_issue j := by
  exact ⟨rfl, by simp [format_issue, hf, hl, hs, hc, ht]⟩

/-- Witness data for C10: same base filename under two directories. -/
def c10_issue_left : Issue :=
  { fname := "src/app/util.py", lineno := 12, severity := "LOW", confidence := "HIGH",
    text := "weak hash algorithm" }

/-- Second witness finding for C10. -/
def c10_issue_right : Issue :=
  { fname := "tests/util.py", lineno := 12, severity := "LOW", confidence := "HIGH",
    text := "weak hash algorithm" }

/-- Witness for C10 at the two concrete findings. -/
theorem c10_basename_collision_witness :
    (basename c10_issue_left.fname = basename c10_issue_right.fname ∧
      c10_issue_left.lineno = c10_issue_right.lineno ∧
      c10_issue_left.severity = c10_issue_right.severity ∧
      c10_issue_left.confidence = c10_issue_right.confidence ∧
      c10_issue_left.text = c10_issue_right.text) ∧
    ((format_issue c10_issue_left).File = basename c10_issue_left.fname ∧
      format_issue c10_issue_left = format_issue c10_issue_right) :=
  ⟨by decide,
   c10_basename_collision c10_issue_left c10_issue_right (by decide) rfl rfl rfl rfl⟩
